import Mathlib

/-
  Verification of the n8n-smart-buffer repository sources:
    - config/medical-config.js  (semantic pattern sets, timing, buffer, circuit breaker)
    - .env.example              (environment variable template)
    - scripts/validate-config.js (ConfigValidator)

  JavaScript regular expressions used by the configuration are embedded as a
  first-order syntax tree (RAtom / Regex) together with an executable matcher
  whose semantics follow RegExp.prototype.test for exactly the constructs
  these patterns use: literal characters (with the i flag), the dot, the
  classes d, w and s, bracket classes, alternation, concatenation,
  bounded repetition (expanded), star of a single-character atom, the word
  boundary assertion, and the anchors at the two ends of a pattern.
-/

/-- Single-character matchers of the embedded regular expressions. -/
inductive RAtom where
  | chr (c : Char) (ci : Bool)
  | dot
  | digit
  | wordc
  | whitespace
  | cls (cs : List Char)
deriving DecidableEq

/-- JavaScript word character, as used by the b assertion and w class:
ASCII letters, ASCII digits and the underscore. -/
def wordChar (c : Char) : Bool :=
  (('a' ≤ c && c ≤ 'z') || ('A' ≤ c && c ≤ 'Z') || ('0' ≤ c && c ≤ '9') || c = '_')

def RAtom.mtest : RAtom → Char → Bool
  | .chr d ci, c => if ci then d.toLower = c.toLower else d = c
  | .dot, c => c ≠ '\n'
  | .digit, c => '0' ≤ c && c ≤ '9'
  | .wordc, c => wordChar c
  | .whitespace, c => c = ' ' || c = '\t' || c = '\n' || c = '\r'
  | .cls cs, c => cs.contains c

/-- Embedded regular expressions.  Unbounded repetition occurs in the source
patterns only over single-character atoms (dot-star, dot-plus, digit-star and
similar), so star is restricted to atoms and the matcher is structurally
recursive. -/
inductive Regex where
  | eps
  | atom (a : RAtom)
  | cat (r s : Regex)
  | alt (r s : Regex)
  | star (a : RAtom)
  | wordB
deriving DecidableEq

/-- Word-boundary test at a position given the previous character (none at the
start of the string) and the rest of the input. -/
def boundaryAt (prev : Option Char) (s : List Char) : Bool :=
  let pw := match prev with | some c => wordChar c | none => false
  let nw := match s with | c :: _ => wordChar c | [] => false
  pw != nw

/-- All ways for a star of one atom to consume a prefix of the input; each
result is the character preceding the remaining input paired with that
remaining input. -/
def starRuns (a : RAtom) : Option Char → List Char → List (Option Char × List Char)
  | p, [] => [(p, [])]
  | p, c :: rest =>
      (p, c :: rest) :: (if a.mtest c then starRuns a (some c) rest else [])

def joinMap (f : α → List β) : List α → List β
  | [] => []
  | a :: as => f a ++ joinMap f as

/-- All ways for the regex to match a prefix of the input; positions carry the
previous character so that word-boundary assertions can be evaluated. -/
def Regex.mrun : Regex → Option Char → List Char → List (Option Char × List Char)
  | .eps, p, s => [(p, s)]
  | .atom _, _, [] => []
  | .atom a, _, c :: rest => if a.mtest c then [(some c, rest)] else []
  | .cat r₁ r₂, p, s => joinMap (fun q => mrun r₂ q.1 q.2) (mrun r₁ p s)
  | .alt r₁ r₂, p, s => mrun r₁ p s ++ mrun r₂ p s
  | .star a, p, s => starRuns a p s
  | .wordB, p, s => if boundaryAt p s then [(p, s)] else []

/-- A JavaScript pattern: body regex plus whether the pattern is anchored with
a caret at the start and with a dollar at the end (the source patterns use
anchors only at their two ends). -/
structure JsPattern where
  re : Regex
  anchorStart : Bool
  anchorEnd : Bool
deriving DecidableEq

/-- Does the regex match starting exactly at this position (consuming up to
the end of input when the pattern is end-anchored)? -/
def matchHere (r : Regex) (p : Option Char) (s : List Char) (anchorEnd : Bool) : Bool :=
  (r.mrun p s).any (fun q => !anchorEnd || q.2.isEmpty)

/-- Try every start position, as RegExp.prototype.test does for a pattern
that is not anchored at the start. -/
def searchFrom (r : Regex) (anchorEnd : Bool) : Option Char → List Char → Bool
  | p, s =>
    matchHere r p s anchorEnd ||
      (match s with
       | [] => false
       | c :: rest => searchFrom r anchorEnd (some c) rest)

/-- RegExp.prototype.test for an embedded pattern. -/
def JsPattern.test (pat : JsPattern) (text : String) : Bool :=
  if pat.anchorStart then matchHere pat.re none text.data pat.anchorEnd
  else searchFrom pat.re pat.anchorEnd none text.data

/-- Literal word (sequence of literal characters); ci is the i flag. -/
def rlit (ci : Bool) (w : String) : Regex :=
  w.data.foldr (fun c r => .cat (.atom (.chr c ci)) r) .eps

/-- Alternation of a list of regexes, associated to the right as in the
source alternations. -/
def ralts : List Regex → Regex
  | [] => .eps
  | [r] => r
  | r :: rs => .alt r (ralts rs)

/-- Concatenation of a list of regexes. -/
def rcats : List Regex → Regex
  | [] => .eps
  | [r] => r
  | r :: rs => .cat r (rcats rs)

/-- Alternation of literal words under one group, e.g. (para|en|el|la). -/
def rwords (ci : Bool) (ws : List String) : Regex :=
  ralts (ws.map (rlit ci))

/-- X? — optional occurrence. -/
def ropt (r : Regex) : Regex := .alt r .eps

/-- The dot-plus idiom: one or more arbitrary (non-newline) characters. -/
def anyPlus : Regex := .cat (.atom .dot) (.star .dot)

-- ==========================================================================
-- config/medical-config.js, semantic.patterns.fragments (source order)
-- ==========================================================================

def fragmentPat0 : JsPattern :=
  ⟨rwords true ["quiero", "necesito", "puedo", "me", "cual", "como", "donde", "cuando"], true, true⟩
def fragmentPat1 : JsPattern :=
  ⟨rwords true ["para", "en", "el", "la", "un", "una", "por"], true, true⟩
def fragmentPat2 : JsPattern :=
  ⟨rwords true ["turno", "cita", "consulta", "precio", "horario", "ubicacion"], true, true⟩
def fragmentPat3 : JsPattern :=
  ⟨rwords true ["cancelar", "modificar", "cambiar", "reagendar"], true, true⟩
def fragmentPat4 : JsPattern :=
  ⟨rwords true ["doctor", "doctora", "dr", "dra"], true, true⟩
def fragmentPat5 : JsPattern :=
  ⟨rwords true ["me duele", "tengo dolor", "siento", "me molesta"], true, true⟩
def fragmentPat6 : JsPattern :=
  ⟨rwords true ["obra social", "prepaga", "osde", "swiss", "galeno"], true, true⟩
def fragmentPat7 : JsPattern :=
  ⟨.cat (rlit true "cuanto ") (rwords true ["cuesta", "vale", "sale"]), true, true⟩
def fragmentPat8 : JsPattern :=
  ⟨rwords true ["mañana", "tarde", "noche", "hoy", "ayer"], true, true⟩
def fragmentPat9 : JsPattern :=
  ⟨rwords true ["lunes", "martes", "miercoles", "jueves", "viernes", "sabado", "domingo"], true, true⟩

def fragmentPatterns : List JsPattern :=
  [fragmentPat0, fragmentPat1, fragmentPat2, fragmentPat3, fragmentPat4,
   fragmentPat5, fragmentPat6, fragmentPat7, fragmentPat8, fragmentPat9]

-- ==========================================================================
-- config/medical-config.js, semantic.patterns.complete (source order)
-- ==========================================================================

def completePat0 : JsPattern :=
  ⟨rcats [rlit true "quiero ", rwords true ["un turno", "una cita", "agendar"],
          rlit true " ", rwords true ["para", "en", "el", "la"], rlit true " ", anyPlus],
   false, false⟩
def completePat1 : JsPattern :=
  ⟨rcats [rlit true "necesito ", rwords true ["un turno", "una cita"], rlit true " ", anyPlus],
   false, false⟩
def completePat2 : JsPattern :=
  ⟨rcats [rlit true "puedo ", rwords true ["agendar", "solicitar"], rlit true " ",
          anyPlus, rlit true " ", rwords true ["turno", "cita"]],
   false, false⟩
def completePat3 : JsPattern :=
  ⟨rcats [.alt (rlit true "cual es") (.cat (rlit true "cuanto ") (rwords true ["cuesta", "vale", "sale"])),
          rlit true " ", rwords true ["el precio", "la tarifa", "el costo"], rlit true " ", anyPlus],
   false, false⟩
def completePat4 : JsPattern :=
  ⟨.cat (ralts [.cat (rlit true "donde ") (rwords true ["esta", "queda"]),
                rlit true "cual es la direccion", rlit true "ubicacion del"])
        (rlit true " consultorio"),
   false, false⟩
def completePat5 : JsPattern :=
  ⟨rcats [rwords true ["que", "cuales"], rlit true " ", rwords true ["horarios", "dias"],
          rlit true " ", rwords true ["atiende", "trabaja", "tiene"]],
   false, false⟩
def completePat6 : JsPattern :=
  ⟨rcats [rwords true ["acepta", "atiende", "toma"], rlit true " ",
          rwords true ["obra social", "prepaga", "osde", "swiss medical"]],
   false, false⟩
def completePat7 : JsPattern :=
  ⟨rcats [rlit true "necesito ", rwords true ["cancelar", "modificar", "cambiar", "reagendar"],
          rlit true " ", rwords true ["mi", "el"], rlit true " ", rwords true ["turno", "cita"],
          rlit true " ", anyPlus],
   false, false⟩
def completePat8 : JsPattern :=
  ⟨rcats [rwords true ["quiero", "necesito"], rlit true " cambiar ",
          rwords true ["mi turno", "la fecha", "el horario"], rlit true " ", anyPlus],
   false, false⟩
def completePat9 : JsPattern :=
  ⟨rcats [rlit true "me duele ", anyPlus, rlit true " ", rwords true ["desde", "hace", "por"]],
   false, false⟩
def completePat10 : JsPattern :=
  ⟨rcats [rlit true "tengo ", rwords true ["dolor", "molestia", "problema"], rlit true " ",
          rwords true ["en", "de"], rlit true " ", anyPlus],
   false, false⟩
def completePat11 : JsPattern :=
  ⟨.cat (rwords true ["hola", "buenos dias", "buenas tardes", "buenas noches"])
        (ropt (rwords true [" doctor", " doctora"])),
   true, true⟩
def completePat12 : JsPattern :=
  ⟨rwords true ["gracias", "muchas gracias", "perfecto", "excelente", "listo", "ok"], true, true⟩
def completePat13 : JsPattern :=
  ⟨rwords true ["hasta luego", "nos vemos", "que tenga buen dia", "chau", "adios"], true, true⟩
def completePat14 : JsPattern :=
  ⟨.cat anyPlus (.atom (.chr '?' false)), false, true⟩

def completePatterns : List JsPattern :=
  [completePat0, completePat1, completePat2, completePat3, completePat4,
   completePat5, completePat6, completePat7, completePat8, completePat9,
   completePat10, completePat11, completePat12, completePat13, completePat14]

-- ==========================================================================
-- config/medical-config.js, semantic.patterns.intents (source order)
-- ==========================================================================

def intentAppointment : JsPattern :=
  ⟨rwords true ["turno", "cita", "agendar", "reservar", "solicitar", "pedir"], false, false⟩
def intentCancellation : JsPattern :=
  ⟨rwords true ["cancelar", "anular", "eliminar", "quitar"], false, false⟩
def intentModification : JsPattern :=
  ⟨rwords true ["cambiar", "modificar", "reagendar", "mover", "reprogramar"], false, false⟩
def intentInformation : JsPattern :=
  ⟨ralts [rlit true "precio", rlit true "costo", rlit true "tarifa", rlit true "horario",
          rlit true "ubicacion", rlit true "direccion",
          rcats [rlit true "obra", ropt (.atom (.chr 's' true)), rlit true " social"],
          rlit true "prepaga"],
   false, false⟩
def intentMedicalQuery : JsPattern :=
  ⟨rwords true ["dolor", "duele", "molestia", "sintoma", "enferm", "salud", "medicina"], false, false⟩
def intentGreeting : JsPattern :=
  ⟨rwords true ["hola", "buenos", "buenas", "buen dia"], false, false⟩
def intentFarewell : JsPattern :=
  ⟨rwords true ["gracias", "chau", "hasta luego", "adios", "nos vemos"], false, false⟩
def intentConfirmation : JsPattern :=
  ⟨rwords true ["si", "ok", "perfecto", "excelente", "listo", "bien", "dale"], false, false⟩
def intentNegation : JsPattern :=
  ⟨rwords true ["no", "nunca", "jamas", "para nada", "de ninguna manera"], false, false⟩

def intentPatterns : List (String × JsPattern) :=
  [("appointment", intentAppointment),
   ("cancellation", intentCancellation),
   ("modification", intentModification),
   ("information", intentInformation),
   ("medical_query", intentMedicalQuery),
   ("greeting", intentGreeting),
   ("farewell", intentFarewell),
   ("confirmation", intentConfirmation),
   ("negation", intentNegation)]

-- ==========================================================================
-- config/medical-config.js, semantic.patterns.entities.date
-- ==========================================================================

/-- The configured date entity pattern: word boundary, one or two digits, a
slash or dash, one or two digits, a slash or dash, two or four digits, word
boundary (the source bounded repetitions are expanded). -/
def dateEntityPattern : JsPattern :=
  ⟨rcats [.wordB, .atom .digit, ropt (.atom .digit), .atom (.cls ['/', '-']),
          .atom .digit, ropt (.atom .digit), .atom (.cls ['/', '-']),
          .alt (rcats [.atom .digit, .atom .digit])
               (rcats [.atom .digit, .atom .digit, .atom .digit, .atom .digit]),
          .wordB],
   false, false⟩

-- ==========================================================================
-- Semantic classification (the engine itself is not under src; its
-- classification algorithm is modelled from the spec, over the pattern
-- sets embedded above from config/medical-config.js)
-- ==========================================================================

inductive Completeness where
  | FRAGMENT
  | COMPLETE
deriving DecidableEq

def isTrimmedChar (c : Char) : Bool := c = ' ' || c = '\t' || c = '\n' || c = '\r'

/-- Modelled from the spec: step 1 of the section 4.1 algorithm normalizes
the text, trimming surrounding whitespace and lowercasing for matching. -/
def normalizeText (text : String) : String :=
  ⟨(((text.data.dropWhile isTrimmedChar).reverse.dropWhile isTrimmedChar).reverse).map Char.toLower⟩

/-- Modelled from the spec: the section 4.1 completeness algorithm of the
Semantic Analyzer, which is not under src.  Test the ordered complete
pattern set first (first match gives COMPLETE), then the fragments set
(a match gives FRAGMENT), and default to COMPLETE. -/
def classifyCompleteness (text : String) : Completeness :=
  let t := normalizeText text
  if completePatterns.any (fun p => p.test t) then .COMPLETE
  else if fragmentPatterns.any (fun p => p.test t) then .FRAGMENT
  else .COMPLETE

/-- Modelled from the spec: intent selection of section 4.1 step 4, which is
not under src.  The first matching entry of the configured intents mapping
wins; no match gives UNKNOWN. -/
def intentOf (text : String) : String :=
  let t := normalizeText text
  match intentPatterns.find? (fun kv => kv.2.test t) with
  | some kv => kv.1
  | none => "UNKNOWN"

-- ==========================================================================
-- The medical industry configuration object (config/medical-config.js,
-- module.exports) embedded as a JSON-like tree; regular expression literals
-- are kept as their source text and flags, process.env reads as envRef.
-- ==========================================================================

mutual
inductive CVal where
  | str (s : String)
  | num (q : Rat)
  | bool (b : Bool)
  | regex (source flags : String)
  | envRef (name : String)
  | arr (items : CArr)
  | obj (fields : CFields)
inductive CArr where
  | nil
  | cons (v : CVal) (rest : CArr)
inductive CFields where
  | nil
  | cons (key : String) (v : CVal) (rest : CFields)
end

def CArr.ofList : List CVal → CArr :=
  fun l => l.foldr .cons .nil

def CFields.ofList : List (String × CVal) → CFields :=
  fun l => l.foldr (fun kv f => .cons kv.1 kv.2 f) .nil

def CVal.objL (l : List (String × CVal)) : CVal := .obj (CFields.ofList l)

def CVal.arrL (l : List CVal) : CVal := .arr (CArr.ofList l)

def CFields.get? : CFields → String → Option CVal
  | .nil, _ => none
  | .cons k v rest, key => if k = key then some v else rest.get? key

/-- Follow a path of object keys down the configuration tree. -/
def CVal.getPath : CVal → List String → Option CVal
  | v, [] => some v
  | .obj f, k :: ks =>
      match f.get? k with
      | some v => v.getPath ks
      | none => none
  | _, _ :: _ => none

def medicalConfig : CVal := CVal.objL [
  ("name", .str "Medical/Healthcare Configuration"),
  ("version", .str "1.0.0"),
  ("description", .str "Semantic patterns and timing optimized for medical consultations"),
  ("semantic", CVal.objL [
    ("patterns", CVal.objL [
      ("fragments", CVal.arrL [
        .regex "^(quiero|necesito|puedo|me|cual|como|donde|cuando)$" "i",
        .regex "^(para|en|el|la|un|una|por)$" "i",
        .regex "^(turno|cita|consulta|precio|horario|ubicacion)$" "i",
        .regex "^(cancelar|modificar|cambiar|reagendar)$" "i",
        .regex "^(doctor|doctora|dr|dra)$" "i",
        .regex "^(me duele|tengo dolor|siento|me molesta)$" "i",
        .regex "^(obra social|prepaga|osde|swiss|galeno)$" "i",
        .regex "^(cuanto (cuesta|vale|sale))$" "i",
        .regex "^(mañana|tarde|noche|hoy|ayer)$" "i",
        .regex "^(lunes|martes|miercoles|jueves|viernes|sabado|domingo)$" "i"]),
      ("complete", CVal.arrL [
        .regex "quiero (un turno|una cita|agendar) (para|en|el|la) .+" "i",
        .regex "necesito (un turno|una cita) .+" "i",
        .regex "puedo (agendar|solicitar) .+ (turno|cita)" "i",
        .regex "(cual es|cuanto (cuesta|vale|sale)) (el precio|la tarifa|el costo) .+" "i",
        .regex "(donde (esta|queda)|cual es la direccion|ubicacion del) consultorio" "i",
        .regex "(que|cuales) (horarios|dias) (atiende|trabaja|tiene)" "i",
        .regex "(acepta|atiende|toma) (obra social|prepaga|osde|swiss medical)" "i",
        .regex "necesito (cancelar|modificar|cambiar|reagendar) (mi|el) (turno|cita) .+" "i",
        .regex "(quiero|necesito) cambiar (mi turno|la fecha|el horario) .+" "i",
        .regex "me duele .+ (desde|hace|por)" "i",
        .regex "tengo (dolor|molestia|problema) (en|de) .+" "i",
        .regex "^(hola|buenos dias|buenas tardes|buenas noches)( doctor| doctora)?$" "i",
        .regex "^(gracias|muchas gracias|perfecto|excelente|listo|ok)$" "i",
        .regex "^(hasta luego|nos vemos|que tenga buen dia|chau|adios)$" "i",
        .regex ".+\\?$" ""]),
      ("intents", CVal.objL [
        ("appointment", .regex "turno|cita|agendar|reservar|solicitar|pedir" "i"),
        ("cancellation", .regex "cancelar|anular|eliminar|quitar" "i"),
        ("modification", .regex "cambiar|modificar|reagendar|mover|reprogramar" "i"),
        ("information", .regex "precio|costo|tarifa|horario|ubicacion|direccion|obras? social|prepaga" "i"),
        ("medical_query", .regex "dolor|duele|molestia|sintoma|enferm|salud|medicina" "i"),
        ("greeting", .regex "hola|buenos|buenas|buen dia" "i"),
        ("farewell", .regex "gracias|chau|hasta luego|adios|nos vemos" "i"),
        ("confirmation", .regex "si|ok|perfecto|excelente|listo|bien|dale" "i"),
        ("negation", .regex "no|nunca|jamas|para nada|de ninguna manera" "i")]),
      ("entities", CVal.objL [
        ("dni", .regex "\\b\\d\x7b7,8\x7d\\b" "g"),
        ("date", .regex "\\b\\d\x7b1,2\x7d[\\/\\-]\\d\x7b1,2\x7d[\\/\\-](\\d\x7b2\x7d|\\d\x7b4\x7d)\\b" "g"),
        ("time", .regex "\\b\\d\x7b1,2\x7d:\\d\x7b2\x7d(\\s*(am|pm))?\\b" "gi"),
        ("phone", .regex "\\b(\\+54\\s?)?(\\d\x7b2,4\x7d[-\\s]?)?\\d\x7b6,8\x7d\\b" "g"),
        ("age", .regex "\\b\\d\x7b1,3\x7d\\s*(años?|year|years old)\\b" "gi"),
        ("insurance", .regex "\\b(osde|swiss medical|galeno|medicus|sancor|federada|ioma|pami)\\b" "gi"),
        ("specialties", .regex "\\b(clinica|cardiolog|dermatolog|ginecolog|pediatr|psicolog|traumatolog|oftalmolog)\\w*" "gi"),
        ("symptoms", .regex "\\b(dolor|fiebre|tos|dolor de cabeza|nauseas|mareo)\\b" "gi")])])]),
  ("timing", CVal.objL [
    ("profiles", CVal.objL [
      ("aggressive", CVal.objL [
        ("urgent", .num 1500), ("simple", .num 2000), ("complex", .num 3000), ("maxBuffer", .num 2)]),
      ("balanced", CVal.objL [
        ("urgent", .num 2000), ("simple", .num 3000), ("complex", .num 4000), ("maxBuffer", .num 3)]),
      ("conservative", CVal.objL [
        ("urgent", .num 3000), ("simple", .num 4000), ("complex", .num 6000), ("maxBuffer", .num 4)])])]),
  ("buffer", CVal.objL [
    ("ttl", .num 300),
    ("maxSize", .num 10),
    ("maxSizeKB", .num 50),
    ("cleanupInterval", .num 60),
    ("slidingTTL", .bool true)]),
  ("circuitBreaker", CVal.objL [
    ("redis", CVal.objL [
      ("threshold", .num 3), ("timeout", .num 30000), ("resetTimeout", .num 60000)]),
    ("ml", CVal.objL [
      ("threshold", .num 2), ("timeout", .num 60000), ("resetTimeout", .num 300000)])]),
  ("metrics", CVal.objL [
    ("retention", CVal.objL [
      ("realtime", .num 300), ("aggregated", .num 604800), ("alerts", .num 86400)]),
    ("tracking", CVal.objL [
      ("responseTime", .bool true),
      ("bufferUtilization", .bool true),
      ("intentDistribution", .bool true),
      ("entityExtraction", .bool true),
      ("fallbackUsage", .bool true),
      ("samplingRate", .num 1)]),
    ("alerts", CVal.objL [
      ("enabled", .bool true),
      ("webhook", .envRef "ALERT_WEBHOOK_URL"),
      ("triggers", CVal.arrL [
        CVal.objL [("name", .str "redis_down"),
                   ("condition", .str "redis_failures > 3 in 3min"),
                   ("severity", .str "critical")],
        CVal.objL [("name", .str "high_buffer_overflow"),
                   ("condition", .str "buffer_overflow_rate > 5% in 5min"),
                   ("severity", .str "warning")],
        CVal.objL [("name", .str "high_fallback_rate"),
                   ("condition", .str "fallback_rate > 10% in 10min"),
                   ("severity", .str "warning")],
        CVal.objL [("name", .str "slow_response_time"),
                   ("condition", .str "avg_response_time > 10s in 5min"),
                   ("severity", .str "warning")]])])]),
  ("ml", CVal.objL [
    ("enabled", .bool false),
    ("fallbackToRegex", .bool true),
    ("endpoints", CVal.objL [
      ("intent", .envRef "ML_INTENT_ENDPOINT"),
      ("entity", .envRef "ML_ENTITY_ENDPOINT"),
      ("sentiment", .envRef "ML_SENTIMENT_ENDPOINT")]),
    ("timeouts", CVal.objL [
      ("intent", .num 2000), ("entity", .num 1500), ("sentiment", .num 1000)]),
    ("confidence", CVal.objL [
      ("minThreshold", .num 0.7), ("fallbackThreshold", .num 0.5)])]),
  ("security", CVal.objL [
    ("rateLimiting", CVal.objL [
      ("enabled", .bool true),
      ("windowMs", .num 60000),
      ("maxRequests", .num 30),
      ("skipSuccessfulRequests", .bool false)]),
    ("dataRetention", CVal.objL [
      ("bufferData", .num 86400), ("metrics", .num 604800), ("logs", .num 259200)])]),
  ("validation", CVal.objL [
    ("required", CVal.arrL [.str "redis.url"]),
    ("rules", CVal.objL [
      ("timing.profiles.balanced.urgent", CVal.objL [
        ("type", .str "number"), ("min", .num 1000), ("max", .num 10000)]),
      ("buffer.ttl", CVal.objL [
        ("type", .str "number"), ("min", .num 60), ("max", .num 3600)]),
      ("buffer.maxSize", CVal.objL [
        ("type", .str "number"), ("min", .num 1), ("max", .num 20)])])])]

-- ==========================================================================
-- .env.example: the environment template, as the ordered list of the
-- variable assignments it contains (commented lines excluded)
-- ==========================================================================

def envTemplate : List (String × String) := [
  ("REDIS_URL", "redis://localhost:6379"),
  ("REDIS_PASSWORD", ""),
  ("REDIS_DB", "0"),
  ("N8N_HOST", "localhost"),
  ("N8N_PORT", "5678"),
  ("N8N_PROTOCOL", "http"),
  ("SMART_BUFFER_CONFIG", "medical"),
  ("SMART_BUFFER_DEBUG", "false"),
  ("BUFFER_TTL", "300"),
  ("BUFFER_MAX_SIZE", "3"),
  ("BUFFER_MAX_SIZE_KB", "50"),
  ("TIMING_URGENT", "2000"),
  ("TIMING_SIMPLE", "3000"),
  ("TIMING_COMPLEX", "4000"),
  ("CIRCUIT_BREAKER_REDIS_THRESHOLD", "3"),
  ("CIRCUIT_BREAKER_REDIS_TIMEOUT", "30000"),
  ("CIRCUIT_BREAKER_ML_THRESHOLD", "2"),
  ("CIRCUIT_BREAKER_ML_TIMEOUT", "60000"),
  ("ML_ENABLED", "false"),
  ("ML_SERVICE_URL", ""),
  ("ML_API_KEY", ""),
  ("ML_MODEL_NAME", "consultorio-intent-v1"),
  ("ML_TIMEOUT", "2000"),
  ("METRICS_ENABLED", "true"),
  ("METRICS_RETENTION_REALTIME", "300"),
  ("METRICS_RETENTION_AGGREGATED", "604800"),
  ("ALERTS_ENABLED", "true"),
  ("ALERT_WEBHOOK_URL", ""),
  ("ALERT_SLACK_TOKEN", ""),
  ("ALERT_TELEGRAM_BOT_TOKEN", ""),
  ("ALERT_TELEGRAM_CHAT_ID", ""),
  ("DASHBOARD_ENABLED", "true"),
  ("DASHBOARD_PORT", "3000"),
  ("DASHBOARD_AUTH_REQUIRED", "false"),
  ("DASHBOARD_USERNAME", "admin"),
  ("DASHBOARD_PASSWORD", ""),
  ("NODE_ENV", "development"),
  ("LOG_LEVEL", "info"),
  ("DEBUG_SEMANTIC_ANALYSIS", "false"),
  ("DEBUG_TIMING_DECISIONS", "false"),
  ("DEBUG_BUFFER_OPERATIONS", "false"),
  ("MAX_CONCURRENT_BUFFERS", "100"),
  ("CLEANUP_INTERVAL", "60000"),
  ("HEALTH_CHECK_INTERVAL", "30000"),
  ("RATE_LIMIT_ENABLED", "true"),
  ("RATE_LIMIT_WINDOW", "60000"),
  ("RATE_LIMIT_MAX_REQUESTS", "100"),
  ("INDUSTRY_CONFIG", "medical"),
  ("CUSTOM_CONFIG_PATH", "./config/my-custom-config.js")]

-- ==========================================================================
-- The urgency derivation table of the spec, and its absence from the
-- configuration tree
-- ==========================================================================

/-- Modelled from the spec's words: the fixed intent to urgencyClass table of
section 4.1 step 6 (appointment, cancellation and modification give URGENT;
information, greeting, farewell, confirmation and negation give SIMPLE;
medical_query gives COMPLEX), written as data to be searched for inside the
source configuration object. -/
def urgencyOfIntentTable : List (String × String) :=
  [("appointment", "URGENT"), ("cancellation", "URGENT"), ("modification", "URGENT"),
   ("information", "SIMPLE"), ("greeting", "SIMPLE"), ("farewell", "SIMPLE"),
   ("confirmation", "SIMPLE"), ("negation", "SIMPLE"),
   ("medical_query", "COMPLEX")]

def asciiUpper (s : String) : String := ⟨s.data.map Char.toUpper⟩

/-- Modelled from the spec's words: does this object hold the intent to
urgencyClass table, i.e. bind every intent name of the table to its urgency
class as a string (compared case-insensitively, extra keys allowed)? -/
def CFields.isUrgencyTable (f : CFields) : Bool :=
  urgencyOfIntentTable.all fun kv =>
    match f.get? kv.1 with
    | some (.str s) => asciiUpper s = kv.2
    | _ => false

mutual
def CVal.hasUrgencyTable : CVal → Bool
  | .obj f => f.isUrgencyTable || f.anyUrgencyTable
  | .arr a => a.anyUrgencyTable
  | _ => false
def CFields.anyUrgencyTable : CFields → Bool
  | .nil => false
  | .cons _ v rest => v.hasUrgencyTable || rest.anyUrgencyTable
def CArr.anyUrgencyTable : CArr → Bool
  | .nil => false
  | .cons v rest => v.hasUrgencyTable || rest.anyUrgencyTable
end

-- ==========================================================================
-- scripts/validate-config.js: the ConfigValidator
-- ==========================================================================

/-- The mutable fields of the ConfigValidator (its constructor initializes
errors and warnings to empty arrays, checks and passed to 0); console output
is not modelled. -/
structure VState where
  errors : List String
  warnings : List String
  checks : Nat
  passed : Nat
deriving DecidableEq

def VState.init : VState := ⟨[], [], 0, 0⟩

/-- ConfigValidator.check: increments checks; on a true condition increments
passed and returns true; otherwise pushes the error message onto warnings
when isWarning is set, onto errors when not, and returns false.  The success
message is only logged by the script. -/
def VState.check (st : VState) (condition : Bool) (sMsg eMsg : String)
    (isWarning : Bool) : VState × Bool :=
  let st := { st with checks := st.checks + 1 }
  if condition then ({ st with passed := st.passed + 1 }, true)
  else if isWarning then ({ st with warnings := st.warnings ++ [eMsg] }, false)
  else ({ st with errors := st.errors ++ [eMsg] }, false)

/-- ConfigValidator.displaySummary: prints the counts (not modelled) and
returns false exactly when the errors array is nonempty. -/
def VState.displaySummary (st : VState) : Bool :=
  if st.errors.length > 0 then false else true

/-- The exit status of main after all validation phases ran without a thrown
exception: process.exit(1) when displaySummary returned false, normal exit 0
otherwise. -/
def mainExitCode (st : VState) : Nat :=
  if st.displaySummary then 0 else 1

/-- JavaScript string truthiness as used on process.env values: an undefined
variable and the empty string are falsy. -/
def truthy : Option String → Bool
  | some s => s ≠ ""
  | none => false

def jsWhitespaceChar (c : Char) : Bool :=
  c = ' ' || c = '\t' || c = '\n' || c = '\r' || c = '\x0b' || c = '\x0c'

def decDigitVal (c : Char) : Nat := c.toNat - '0'.toNat

def isHexDigitChar (c : Char) : Bool :=
  c.isDigit || ('a' ≤ c && c ≤ 'f') || ('A' ≤ c && c ≤ 'F')

def hexDigitVal (c : Char) : Nat :=
  if c.isDigit then c.toNat - '0'.toNat
  else if 'a' ≤ c && c ≤ 'f' then c.toNat - 'a'.toNat + 10
  else c.toNat - 'A'.toNat + 10

def natOfDigits (base : Nat) (v : Char → Nat) (ds : List Char) : Nat :=
  ds.foldl (fun acc c => acc * base + v c) 0

/-- parseInt with no radix argument, as called by validateEnvironment: skip
leading whitespace, read an optional sign, use base 16 after a 0x or 0X
prefix and base 10 otherwise, consume the leading digits and ignore the
rest; none models NaN (no digits). -/
def jsParseInt (s : String) : Option Int :=
  let cs := s.data.dropWhile jsWhitespaceChar
  let sign : Int := match cs with | '-' :: _ => -1 | _ => 1
  let cs := match cs with | '-' :: r => r | '+' :: r => r | _ => cs
  match cs with
  | '0' :: x :: r =>
    if x = 'x' || x = 'X' then
      let ds := r.takeWhile isHexDigitChar
      if ds.isEmpty then none else some (sign * Int.ofNat (natOfDigits 16 hexDigitVal ds))
    else
      let ds := cs.takeWhile Char.isDigit
      if ds.isEmpty then none else some (sign * Int.ofNat (natOfDigits 10 decDigitVal ds))
  | _ =>
      let ds := cs.takeWhile Char.isDigit
      if ds.isEmpty then none else some (sign * Int.ofNat (natOfDigits 10 decDigitVal ds))

/-- The required environment variables of validateEnvironment. -/
def requiredVars : List String := ["REDIS_URL", "INDUSTRY_CONFIG"]

/-- The numeric environment variables of validateEnvironment. -/
def numericVars : List String := ["BUFFER_TTL", "TIMING_URGENT", "TIMING_SIMPLE", "TIMING_COMPLEX"]

/-- The Redis URL format pattern of validateEnvironment. -/
def redisUrlPattern : JsPattern :=
  ⟨rcats [rlit false "redis://", .star .dot, .atom (.chr ':' false), .atom .digit, .star .digit],
   true, true⟩

/-- One step of the required-variables forEach of validateEnvironment. -/
def requiredStep (env : String → Option String) (acc : VState) (v : String) : VState :=
  (acc.check (truthy (env v)) (v ++ " is set") (v ++ " is missing in .env file") false).1

/-- One step of the numeric-variables forEach of validateEnvironment: the
body runs only when the variable is truthy, and its check passes when
parseInt yields a positive non-NaN value. -/
def numericStep (env : String → Option String) (acc : VState) (v : String) : VState :=
  match env v with
  | some s =>
      if s = "" then acc
      else
        (acc.check (match jsParseInt s with | some n => decide (0 < n) | none => false)
          (v ++ " is a valid number") (v ++ " is not a valid positive number") true).1
  | none => acc

/-- The Redis URL format check of validateEnvironment: it runs only when
REDIS_URL is truthy and records its failure as a warning. -/
def redisFormatStep (env : String → Option String) (st : VState) : VState :=
  match env "REDIS_URL" with
  | some url =>
      if url = "" then st
      else
        (st.check (redisUrlPattern.test url) "Redis URL format is valid"
          "Redis URL format is invalid (should be redis://host:port)" true).1
  | none => st

/-- ConfigValidator.validateEnvironment: the .env existence check (the fs
lookup passed in as envFileExists), then the required-variable checks, then
the Redis URL format check (a warning), then the numeric-variable checks
(warnings), composed in the source order. -/
def validateEnvironment (envFileExists : Bool) (env : String → Option String)
    (st : VState) : VState :=
  numericVars.foldl (numericStep env)
    (redisFormatStep env
      (requiredVars.foldl (requiredStep env)
        ((st.check envFileExists ".env file found"
            ".env file is missing (copy from .env.example)" false).1)))

/-- The semantic.patterns sets of a loaded configuration, with every pattern
as the string handed to new RegExp by the validator. -/
structure SemPatterns where
  fragments : List String
  complete : List String
  intents : List (String × String)
  entities : List (String × String)

/-- One step of the fragment compilation forEach (validate-config.js lines
214 to 221): a pattern new RegExp rejects pushes a message onto errors
directly and clears the validPatterns flag.  The JavaScript message ends
with the engine error text, which is not modelled. -/
def fragmentCompileStep (compiles : String → Bool) (acc : VState × Bool)
    (ip : Nat × String) : VState × Bool :=
  if compiles ip.2 then acc
  else ({ acc.1 with errors := acc.1.errors ++
            ["Invalid regex in fragments[" ++ toString ip.1 ++ "]"] }, false)

/-- The summary check closing the fragment compilation loop: check the
validPatterns flag carried next to the state. -/
def fragmentSummaryCheck (r : VState × Bool) : VState :=
  ((r.1).check r.2 "All fragment patterns are valid regex"
    "Some fragment patterns have invalid regex syntax" false).1

/-- The pattern block of ConfigValidator.validateConfiguration (lines 199 to
228): inside if config.semantic and config.semantic.patterns, check that
fragments and complete are arrays (true for this typed embedding), compile
every FRAGMENTS pattern under the new RegExp oracle, and run the summary
check on the flag.  The complete, intents and entities sets get no
compilation pass. -/
def validateConfigPatterns (compiles : String → Bool) (p : SemPatterns)
    (st : VState) : VState :=
  fragmentSummaryCheck
    (p.fragments.enum.foldl (fragmentCompileStep compiles)
      (((st.check true "Fragment patterns are defined as array"
           "Fragment patterns should be an array" false).1.check true
          "Complete patterns are defined as array"
          "Complete patterns should be an array" false).1, true))

-- ==========================================================================
-- Claim theorems
-- ==========================================================================

/-- Claim C1: the claim states that under the medical configuration and the
section 4.1 algorithm the text quiero un turno is classified FRAGMENT,
matching no complete pattern but some fragment pattern.  On the source
configuration every fragment pattern is anchored at both ends around single
words or fixed short phrases, so the text matches NO fragment pattern (and
also no complete pattern) and the algorithm classifies it COMPLETE by
default.  This theorem evaluates the embedded configuration at that failing
input. -/
theorem c1_quieroUnTurno_not_fragment :
    (completePatterns.any fun p => p.test (normalizeText "quiero un turno")) = false ∧
    (fragmentPatterns.any fun p => p.test (normalizeText "quiero un turno")) = false ∧
    classifyCompleteness "quiero un turno" = Completeness.COMPLETE :=
  ⟨by decide, by decide, by decide⟩

/-- Claim C2: the claim states that the configured date entity pattern
matches the substring mañana of the Scenario A aggregate text, putting
mañana into entities.date.  The configured date pattern only matches numeric
dates (digits separated by slashes or dashes), so it matches nowhere in that
aggregate text, and in particular never matches the word mañana.  This
theorem evaluates the embedded pattern at those failing inputs. -/
theorem c2_date_entity_no_manana :
    dateEntityPattern.test "quiero un turno para mañana en la mañana" = false ∧
    dateEntityPattern.test "mañana" = false ∧
    dateEntityPattern.test "12/05/2024" = true :=
  ⟨by decide, by decide, by decide⟩

/-- Claim C4 counterexample: the claim states that the explicit
question-mark pattern is listed strictly before the greeting and farewell
shortcut patterns in the complete list.  It is not: the question-mark
pattern sits at index 14, after the greeting pattern at index 11. -/
theorem c4_question_after_greetings :
    ¬ (∀ i j : Nat, completePatterns[i]? = some completePat14 →
        completePatterns[j]? = some completePat11 → i < j) := by
  intro h
  have h2 := h 14 11 rfl rfl
  omega

/-- Claim C4 amended: in the ordered complete list the eleven specific
full-sentence patterns occupy indices 0 to 10, before the anchored greeting
and farewell shortcut patterns at indices 11 to 13, while the explicit
question-mark pattern is listed last, at index 14, after the greeting and
farewell shortcuts; under first-match evaluation a text matched only by the
question-mark pattern is found at index 14 and a bare greeting at 11. -/
theorem c4_complete_pattern_order :
    completePatterns.length = 15 ∧
    completePatterns[11]? = some completePat11 ∧
    completePatterns[12]? = some completePat12 ∧
    completePatterns[13]? = some completePat13 ∧
    completePatterns[14]? = some completePat14 ∧
    ((completePatterns.take 11).all fun p => !p.anchorStart) = true ∧
    (completePatterns.findIdx? fun p => p.test "cuanto sale?") = some 14 ∧
    (completePatterns.findIdx? fun p => p.test "hola") = some 11 :=
  ⟨rfl, rfl, rfl, rfl, rfl, by decide, by decide, by decide⟩

/-- Claim C5: the configured intents mapping enumerates its patterns in
exactly the priority order appointment, cancellation, modification,
information, medical_query, greeting, farewell, confirmation, negation, and
first-match evaluation over the mapping yields UNKNOWN for a text that
matches no intent pattern. -/
theorem c5_intent_priority :
    (intentPatterns.map Prod.fst =
      ["appointment", "cancellation", "modification", "information", "medical_query",
       "greeting", "farewell", "confirmation", "negation"]) ∧
    ∀ text : String,
      (intentPatterns.all fun kv => !(kv.2.test (normalizeText text))) = true →
      intentOf text = "UNKNOWN" := by
  refine ⟨rfl, fun text h => ?_⟩
  have h2 : intentPatterns.find? (fun kv => kv.2.test (normalizeText text)) = none := by
    rw [List.find?_eq_none]
    intro x hx
    have h3 := List.all_eq_true.mp h x hx
    simp only [Bool.not_eq_true'] at h3
    simp [h3]
  simp [intentOf, h2]

/-- Claim C5 witness at the concrete no-intent text xyz. -/
theorem c5_intent_priority_witness : intentOf "xyz" = "UNKNOWN" :=
  c5_intent_priority.2 "xyz" (by decide)

/-- Claim C6 counterexample: the claim states that the intent to
urgencyClass derivation table is present as data inside the medical industry
configuration object; no subtree of the embedded configuration binds the
intent names to their urgency classes. -/
theorem c6_no_urgency_table : medicalConfig.hasUrgencyTable = false := by decide

/-- Claim C6 amended: the medical configuration object does NOT contain the
intent to urgencyClass derivation table anywhere in its tree; the urgency
classes appear in the configuration only as the timing profile keys urgent,
simple and complex (shown here on the balanced profile), and the intent
names only as keys of the regex-valued intents mapping. -/
theorem c6_urgency_table_absent :
    medicalConfig.hasUrgencyTable = false ∧
    medicalConfig.getPath ["timing", "profiles", "balanced", "urgent"] = some (.num 2000) ∧
    medicalConfig.getPath ["timing", "profiles", "balanced", "simple"] = some (.num 3000) ∧
    medicalConfig.getPath ["timing", "profiles", "balanced", "complex"] = some (.num 4000) ∧
    (medicalConfig.getPath ["semantic", "patterns", "intents", "appointment"]).isSome = true ∧
    (medicalConfig.getPath ["semantic", "patterns", "intents", "appointment"]) =
      some (.regex "turno|cita|agendar|reservar|solicitar|pedir" "i") :=
  ⟨by decide, rfl, rfl, rfl, rfl, rfl⟩

/-- Claim C7: the default buffer TTL is 300 seconds with sliding TTL
enabled: the medical configuration sets buffer.ttl to 300 and
buffer.slidingTTL to true, and the environment template assigns BUFFER_TTL
the default 300. -/
theorem c7_buffer_ttl_default :
    medicalConfig.getPath ["buffer", "ttl"] = some (.num 300) ∧
    medicalConfig.getPath ["buffer", "slidingTTL"] = some (.bool true) ∧
    envTemplate.lookup "BUFFER_TTL" = some "300" :=
  ⟨rfl, rfl, rfl⟩

/-- Claim C8: after the validation phases, displaySummary returns true
exactly when the errors list is empty, main exits with 0 exactly then, and
the warnings list has no influence on the returned value. -/
theorem c8_summary_iff_no_errors (st : VState) (ws : List String) :
    (st.displaySummary = true ↔ st.errors = []) ∧
    (mainExitCode st = 0 ↔ st.errors = []) ∧
    VState.displaySummary { st with warnings := ws } = st.displaySummary := by
  unfold mainExitCode VState.displaySummary
  rcases st with ⟨errs, warns, c, p⟩
  cases errs <;> simp

/-- Claim C9: every call to ConfigValidator.check increments checks by
exactly one, increments exactly one of passed, the errors length or the
warnings length (passed on a true condition, errors on a false condition
without the warning flag, warnings on a false condition with it), and hence
preserves the invariant that checks equals passed plus errors plus
warnings. -/
theorem c9_check_counts (st : VState) (cond isW : Bool) (sMsg eMsg : String) :
    ((st.check cond sMsg eMsg isW).1.checks = st.checks + 1) ∧
    (cond = true →
        (st.check cond sMsg eMsg isW).1.passed = st.passed + 1 ∧
        (st.check cond sMsg eMsg isW).1.errors = st.errors ∧
        (st.check cond sMsg eMsg isW).1.warnings = st.warnings) ∧
    (cond = false → isW = false →
        (st.check cond sMsg eMsg isW).1.errors = st.errors ++ [eMsg] ∧
        (st.check cond sMsg eMsg isW).1.passed = st.passed ∧
        (st.check cond sMsg eMsg isW).1.warnings = st.warnings) ∧
    (cond = false → isW = true →
        (st.check cond sMsg eMsg isW).1.warnings = st.warnings ++ [eMsg] ∧
        (st.check cond sMsg eMsg isW).1.passed = st.passed ∧
        (st.check cond sMsg eMsg isW).1.errors = st.errors) ∧
    (st.checks = st.passed + st.errors.length + st.warnings.length →
        (st.check cond sMsg eMsg isW).1.checks =
          (st.check cond sMsg eMsg isW).1.passed +
          (st.check cond sMsg eMsg isW).1.errors.length +
          (st.check cond sMsg eMsg isW).1.warnings.length) := by
  cases cond <;> cases isW <;> simp [VState.check] <;> omega

/-- Claim C9 witness: the invariant step evaluated on the initial validator
state with a passing check. -/
theorem c9_check_counts_witness :
    ((VState.init.check true "ok" "bad" false).1.checks =
      (VState.init.check true "ok" "bad" false).1.passed +
      (VState.init.check true "ok" "bad" false).1.errors.length +
      (VState.init.check true "ok" "bad" false).1.warnings.length) ∧
    (VState.init.check true "ok" "bad" false).1.passed = VState.init.passed + 1 :=
  ⟨(c9_check_counts VState.init true false "ok" "bad").2.2.2.2 rfl,
   ((c9_check_counts VState.init true false "ok" "bad").2.1 rfl).1⟩

-- ==========================================================================
-- Helper lemmas about the validator pipeline
-- ==========================================================================

lemma check_warn_errors (st : VState) (c : Bool) (sm em : String) :
    ((st.check c sm em true).1).errors = st.errors := by
  cases c <;> simp [VState.check]

lemma check_true_errors (st : VState) (sm em : String) (w : Bool) :
    ((st.check true sm em w).1).errors = st.errors := by
  simp [VState.check]

lemma check_errors_ext (st : VState) (c w : Bool) (sm em : String) :
    ∃ t, ((st.check c sm em w).1).errors = st.errors ++ t := by
  cases c
  · cases w
    · exact ⟨[em], by simp [VState.check]⟩
    · exact ⟨[], by simp [VState.check]⟩
  · exact ⟨[], by cases w <;> simp [VState.check]⟩

lemma check_warnings_ext (st : VState) (c w : Bool) (sm em : String) :
    ∃ t, ((st.check c sm em w).1).warnings = st.warnings ++ t := by
  cases c
  · cases w
    · exact ⟨[], by simp [VState.check]⟩
    · exact ⟨[em], by simp [VState.check]⟩
  · exact ⟨[], by cases w <;> simp [VState.check]⟩

lemma check_nonwarn_warnings (st : VState) (c : Bool) (sm em : String) :
    ((st.check c sm em false).1).warnings = st.warnings := by
  cases c <;> simp [VState.check]

lemma requiredStep_errors_missing (env : String → Option String) (st : VState)
    (v : String) (h : truthy (env v) = false) :
    (requiredStep env st v).errors = st.errors ++ [v ++ " is missing in .env file"] := by
  simp [requiredStep, h, VState.check]

lemma requiredStep_errors_ok (env : String → Option String) (st : VState)
    (v : String) (h : truthy (env v) = true) :
    (requiredStep env st v).errors = st.errors := by
  simp [requiredStep, h, VState.check]

lemma requiredStep_errors_ext (env : String → Option String) (st : VState) (v : String) :
    ∃ t, (requiredStep env st v).errors = st.errors ++ t :=
  check_errors_ext st (truthy (env v)) false (v ++ " is set") (v ++ " is missing in .env file")

lemma requiredStep_warnings (env : String → Option String) (st : VState) (v : String) :
    (requiredStep env st v).warnings = st.warnings :=
  check_nonwarn_warnings st (truthy (env v)) (v ++ " is set") (v ++ " is missing in .env file")

lemma numericStep_errors (env : String → Option String) (st : VState) (v : String) :
    (numericStep env st v).errors = st.errors := by
  unfold numericStep
  cases h : env v with
  | none => rfl
  | some s =>
      by_cases hs : s = ""
      · simp [hs]
      · simp [hs, check_warn_errors]

lemma numericFold_errors (env : String → Option String) :
    ∀ (l : List String) (st : VState), (l.foldl (numericStep env) st).errors = st.errors := by
  intro l
  induction l with
  | nil => intro st; rfl
  | cons v l ih => intro st; rw [List.foldl_cons, ih, numericStep_errors]

lemma numericStep_warnings_ext (env : String → Option String) (st : VState) (v : String) :
    ∃ t, (numericStep env st v).warnings = st.warnings ++ t := by
  unfold numericStep
  cases h : env v with
  | none => exact ⟨[], by simp⟩
  | some s =>
      by_cases hs : s = ""
      · exact ⟨[], by simp [hs]⟩
      · simp only [hs, if_false]
        exact check_warnings_ext st _ true _ _

lemma numericFold_warnings_mem (env : String → Option String) :
    ∀ (l : List String) (st : VState) (a : String),
      a ∈ st.warnings → a ∈ (l.foldl (numericStep env) st).warnings := by
  intro l
  induction l with
  | nil => intro st a ha; exact ha
  | cons v l ih =>
      intro st a ha
      rw [List.foldl_cons]
      refine ih _ a ?_
      obtain ⟨t, ht⟩ := numericStep_warnings_ext env st v
      rw [ht]
      exact List.mem_append_left t ha

lemma numericStep_warn_add (env : String → Option String) (st : VState) (v s : String)
    (h : env v = some s) (hs : s ≠ "")
    (hbad : (match jsParseInt s with | some n => decide (0 < n) | none => false) = false) :
    (numericStep env st v).warnings = st.warnings ++ [v ++ " is not a valid positive number"] := by
  simp [numericStep, h, hs, hbad, VState.check]

lemma numericFold_warn_mem_of_bad (env : String → Option String) :
    ∀ (l : List String) (st : VState) (v s : String), v ∈ l → env v = some s → s ≠ "" →
      (match jsParseInt s with | some n => decide (0 < n) | none => false) = false →
      (v ++ " is not a valid positive number") ∈ (l.foldl (numericStep env) st).warnings := by
  intro l
  induction l with
  | nil => intro st v s hv; cases hv
  | cons w l ih =>
      intro st v s hv h hs hbad
      rw [List.foldl_cons]
      rcases List.mem_cons.mp hv with hvw | hvl
      · subst hvw
        refine numericFold_warnings_mem env l _ _ ?_
        rw [numericStep_warn_add env st v s h hs hbad]
        exact List.mem_append_right _ (by simp)
      · exact ih _ v s hvl h hs hbad

lemma redisFormatStep_errors (env : String → Option String) (st : VState) :
    (redisFormatStep env st).errors = st.errors := by
  unfold redisFormatStep
  cases h : env "REDIS_URL" with
  | none => rfl
  | some url =>
      by_cases hu : url = ""
      · simp [hu]
      · simp [hu, check_warn_errors]

lemma redisFormatStep_falsy (env : String → Option String) (st : VState)
    (h : truthy (env "REDIS_URL") = false) : redisFormatStep env st = st := by
  unfold redisFormatStep
  cases k : env "REDIS_URL" with
  | none => rfl
  | some url =>
      rw [k] at h
      simp only [truthy, decide_eq_false_iff_not, Decidable.not_not] at h
      simp [h]

lemma redisFormatStep_warnings_ext (env : String → Option String) (st : VState) :
    ∃ t, (redisFormatStep env st).warnings = st.warnings ++ t := by
  unfold redisFormatStep
  cases h : env "REDIS_URL" with
  | none => exact ⟨[], by simp⟩
  | some url =>
      by_cases hu : url = ""
      · exact ⟨[], by simp [hu]⟩
      · simp only [hu, if_false]
        exact check_warnings_ext st _ true _ _

lemma redisFormatStep_warn_mem (env : String → Option String) (st : VState) (url : String)
    (h : env "REDIS_URL" = some url) (hu : url ≠ "")
    (hbad : redisUrlPattern.test url = false) :
    "Redis URL format is invalid (should be redis://host:port)" ∈
      (redisFormatStep env st).warnings := by
  simp [redisFormatStep, h, hu, hbad, VState.check]

lemma displaySummary_of_errors_ne (st : VState) (h : st.errors ≠ []) :
    st.displaySummary = false ∧ mainExitCode st = 1 := by
  have hl : 0 < st.errors.length := List.length_pos.mpr h
  constructor
  · simp [VState.displaySummary, hl]
  · simp [mainExitCode, VState.displaySummary, hl]

lemma fragmentFold_flag (compiles : String → Bool) :
    ∀ (l : List (Nat × String)) (st : VState) (b : Bool),
      (l.foldl (fragmentCompileStep compiles) (st, b)).2 =
        (b && l.all fun ip => compiles ip.2) := by
  intro l
  induction l with
  | nil => intro st b; simp
  | cons ip l ih =>
      intro st b
      rw [List.foldl_cons]
      by_cases h : compiles ip.2 = true
      · simp [fragmentCompileStep, h, ih]
      · rw [Bool.not_eq_true] at h
        simp [fragmentCompileStep, h, ih]

lemma all_snd (compiles : String → Bool) :
    ∀ (l : List (Nat × String)),
      (l.all fun ip => compiles ip.2) = (l.map Prod.snd).all compiles := by
  intro l
  induction l with
  | nil => rfl
  | cons ip l ih => simp [ih]

lemma enum_all_snd (compiles : String → Bool) (l : List String) :
    (l.enum.all fun ip => compiles ip.2) = l.all compiles := by
  rw [all_snd, List.enum_map_snd]

lemma fragmentSummaryCheck_errors_ne (r : VState × Bool) (h : r.2 = false) :
    (fragmentSummaryCheck r).errors =
      r.1.errors ++ ["Some fragment patterns have invalid regex syntax"] := by
  simp [fragmentSummaryCheck, h, VState.check]

-- ==========================================================================
-- Claims C3 and C10
-- ==========================================================================

/-- The new RegExp oracle of the C3 counterexample: the single pattern made
of one open parenthesis is malformed; every other string compiles. -/
def compilesEx : String → Bool := fun s => s ≠ "("

/-- The C3 counterexample configuration: a well-formed fragments set next to
a malformed pattern inside the complete set. -/
def badCompleteSem : SemPatterns := ⟨["^(hola)$"], ["("], [], []⟩

/-- Claim C3 counterexample: the claim states that a malformed pattern in
ANY of the four configured pattern sets makes validation record an error and
exit nonzero.  For a configuration whose complete set holds the malformed
pattern ( while the fragments all compile, the pattern block of
validateConfiguration records no error at all and the summary exits 0. -/
theorem c3_complete_set_not_compile_checked :
    compilesEx "(" = false ∧
    badCompleteSem.complete = ["("] ∧
    (validateConfigPatterns compilesEx badCompleteSem VState.init).errors = [] ∧
    (validateConfigPatterns compilesEx badCompleteSem VState.init).displaySummary = true ∧
    mainExitCode (validateConfigPatterns compilesEx badCompleteSem VState.init) = 0 := by
  refine ⟨by decide, rfl, by decide, by decide, by decide⟩

lemma validateConfigPatterns_errors_of_badfrag (compiles : String → Bool)
    (p : SemPatterns) (st : VState) (s : String) (hs : s ∈ p.fragments)
    (hbad : compiles s = false) :
    (validateConfigPatterns compiles p st).errors ≠ [] := by
  have hall : p.fragments.all compiles = false := by
    cases hv : p.fragments.all compiles
    · rfl
    · have := List.all_eq_true.mp hv s hs
      rw [hbad] at this
      exact absurd this (by simp)
  unfold validateConfigPatterns
  rw [fragmentSummaryCheck_errors_ne _ (by rw [fragmentFold_flag, enum_all_snd, hall]; simp)]
  simp

/-- Claim C3 amended: only the fragments pattern set is compile-checked by
the validator: the result of the pattern block depends on the other three
sets in no way (any two configurations agreeing on fragments validate
identically, whatever malformed patterns the complete, intents or entities
sets hold), while a malformed fragment pattern makes the block record an
error, so that displaySummary returns false and the process exits 1. -/
theorem c3_fragments_only_compile_checked (compiles : String → Bool)
    (p q : SemPatterns) (st : VState) (hfrag : p.fragments = q.fragments) :
    validateConfigPatterns compiles p st = validateConfigPatterns compiles q st ∧
    ∀ s ∈ p.fragments, compiles s = false →
      (validateConfigPatterns compiles p st).errors ≠ [] ∧
      (validateConfigPatterns compiles p st).displaySummary = false ∧
      mainExitCode (validateConfigPatterns compiles p st) = 1 := by
  constructor
  · unfold validateConfigPatterns
    rw [hfrag]
  · intro s hs hbad
    have hne := validateConfigPatterns_errors_of_badfrag compiles p st s hs hbad
    have hd := displaySummary_of_errors_ne _ hne
    exact ⟨hne, hd.1, hd.2⟩

/-- The C3 witness configuration: the malformed pattern sits in the
fragments set. -/
def badFragSem : SemPatterns := ⟨["("], [], [], []⟩

/-- Claim C3 witness: with the malformed pattern among the fragments, the
pattern block does record an error and the summary exits 1. -/
theorem c3_fragments_only_compile_checked_witness :
    (validateConfigPatterns compilesEx badFragSem VState.init).errors ≠ [] ∧
    mainExitCode (validateConfigPatterns compilesEx badFragSem VState.init) = 1 := by
  have h := (c3_fragments_only_compile_checked compilesEx badFragSem badFragSem
    VState.init rfl).2 "(" (by decide) (by decide)
  exact ⟨h.1, h.2.2⟩

/-- Claim C10: in validateEnvironment a missing (or empty, hence falsy)
REDIS_URL or INDUSTRY_CONFIG is recorded as an error, so validation fails;
whereas once the .env file exists and both required variables are truthy,
the phase adds no error at all — a REDIS_URL failing the redis://host:port
format and any numeric variable whose value parseInt rejects or makes
nonpositive are recorded only as warnings. -/
theorem c10_required_errors_vs_format_warnings (envFileExists : Bool)
    (env : String → Option String) (st : VState) :
    (truthy (env "REDIS_URL") = false →
       "REDIS_URL is missing in .env file" ∈
         (validateEnvironment envFileExists env st).errors) ∧
    (truthy (env "INDUSTRY_CONFIG") = false →
       "INDUSTRY_CONFIG is missing in .env file" ∈
         (validateEnvironment envFileExists env st).errors) ∧
    (envFileExists = true → truthy (env "REDIS_URL") = true →
       truthy (env "INDUSTRY_CONFIG") = true →
       (validateEnvironment envFileExists env st).errors = st.errors) ∧
    (∀ url, env "REDIS_URL" = some url → url ≠ "" →
       redisUrlPattern.test url = false →
       "Redis URL format is invalid (should be redis://host:port)" ∈
         (validateEnvironment envFileExists env st).warnings) ∧
    (∀ v s, v ∈ numericVars → env v = some s → s ≠ "" →
       (match jsParseInt s with | some n => decide (0 < n) | none => false) = false →
       (v ++ " is not a valid positive number") ∈
         (validateEnvironment envFileExists env st).warnings) := by
  unfold validateEnvironment
  simp only [requiredVars, List.foldl_cons, List.foldl_nil]
  refine ⟨?_, ?_, ?_, ?_, ?_⟩
  · intro h
    rw [numericFold_errors, redisFormatStep_errors]
    obtain ⟨t, ht⟩ := requiredStep_errors_ext env
      (requiredStep env ((st.check envFileExists ".env file found"
        ".env file is missing (copy from .env.example)" false).1) "REDIS_URL")
      "INDUSTRY_CONFIG"
    rw [ht, requiredStep_errors_missing env _ _ h]
    exact List.mem_append_left t (List.mem_append_right _ (by simp))
  · intro h
    rw [numericFold_errors, redisFormatStep_errors,
      requiredStep_errors_missing env _ _ h]
    exact List.mem_append_right _ (by simp)
  · intro hfe h1 h2
    subst hfe
    rw [numericFold_errors, redisFormatStep_errors,
      requiredStep_errors_ok env _ _ h2, requiredStep_errors_ok env _ _ h1,
      check_true_errors]
  · intro url hu hne hbad
    refine numericFold_warnings_mem env numericVars _ _ ?_
    exact redisFormatStep_warn_mem env _ url hu hne hbad
  · intro v s hv h hs hbad
    exact numericFold_warn_mem_of_bad env numericVars _ v s hv h hs hbad
/-- The environment of the C10 witness: both required variables set, the
Redis URL well formed, no numeric variables set. -/
def envGood : String → Option String := fun v =>
  if v = "REDIS_URL" then some "redis://localhost:6379"
  else if v = "INDUSTRY_CONFIG" then some "medical"
  else none

/-- Claim C10 witness: with the .env file present and the required variables
truthy, validateEnvironment leaves the errors of the initial state empty. -/
theorem c10_required_errors_vs_format_warnings_witness :
    (validateEnvironment true envGood VState.init).errors = [] :=
  (c10_required_errors_vs_format_warnings true envGood VState.init).2.2.1
    rfl (by decide) (by decide)

-- ==========================================================================
-- Sanity checks of the embedded matcher (positive cases complementing the
-- negative evaluations of the claim theorems)
-- ==========================================================================

example : fragmentPat0.test "quiero" = true := by decide
example : fragmentPat8.test "mañana" = true := by decide
example : completePat0.test "quiero un turno para el martes" = true := by decide
example : completePat11.test "hola doctor" = true := by decide
example : completePat14.test "cuanto sale?" = true := by decide
example : classifyCompleteness "mañana" = Completeness.FRAGMENT := by decide
example : intentOf "quiero un turno" = "appointment" := by decide
example : dateEntityPattern.test "el 12/05/2024 a las 10" = true := by decide
example : redisUrlPattern.test "redis://localhost:6379" = true := by decide
example : redisUrlPattern.test "localhost:6379" = false := by decide
example : jsParseInt "300" = some 300 := by decide
example : jsParseInt "  -42abc" = some (-42) := by decide
example : jsParseInt "abc" = none := by decide
